import Mathlib

/-!
Verification of the call-lifecycle state synchronization protocol of the
Voice2 dashboard.  The definitions below are shallow embeddings of the
TypeScript route handlers and client hooks:

* `processWebhookGet` — the status-update logic of the GET handler in
  `src/app/api/exotel/webhook/route.ts` (the Call State Reconciler).
* `initiateExotelAfterCreate` — the provider-response handling of
  `src/app/api/calls/initiate-exotel/route.ts` after the initial record
  has been created.
* `connectWebhook` — the answer-webhook of `src/app/api/exotel/connect/route.ts`.
* `callStatusEndpoint` / `hangupEndpoint` — the authenticated per-call
  routes (`[callId]/status` and `[callId]/hangup`).
* `pollCallStatusStep` — one iteration of `pollCallStatus` in
  `src/app/dashboard/calls/page.tsx`.
* `socketStep` — the WebSocket connection guard of the `useSocket` hook.
* `audioStep` — the sequential audio playback queue (`processAudioQueue`).

JavaScript truthiness on nullable strings (`x || y`, `if (!x)`) is modelled
by `truthy` / `jsOr`; machine dates are modelled as abstract `Nat` instants
supplied by the caller ("now").
-/

/-- The `status` enum of the Mongoose Call model (`src/models/callModel.ts`). -/
inductive CallStatus where
  | queued
  | initiating
  | ringing
  | answered
  | inProgress
  | connected
  | ended
  | completed
  | failed
  | busy
  | noAnswer
  | canceled
deriving DecidableEq

/-- One persisted Call document, with the fields the lifecycle logic
reads or writes (`src/models/callModel.ts`).  Dates are abstract `Nat`
instants; fields the protocol never touches (notes, cost, transcript, ...)
are omitted. -/
structure CallRecord where
  id : String
  userId : String
  elevenLabsAgentId : String
  agentName : Option String := none
  contactName : Option String := none
  phoneNumber : String := ""
  exotelCallSid : Option String := none
  status : CallStatus := .queued
  failureReason : Option String := none
  elevenLabsSignedUrl : Option String := none
  callStartTime : Option Nat := none
  callEndTime : Option Nat := none
  duration : Option Int := none
deriving DecidableEq

/-- JavaScript truthiness of a nullable string: `null`, `undefined` and
the empty string are falsy. -/
def truthy : Option String → Bool
  | none => false
  | some s => s ≠ ""

/-- JavaScript `a || b` on nullable strings. -/
def jsOr (a b : Option String) : Option String :=
  if truthy a then a else b

/-- JavaScript `x || null` (used by the status endpoint response). -/
def jsOrNull (a : Option String) : Option String :=
  if truthy a then a else none

/-- String interpolation of a nullable string (`null` prints as "null"). -/
def jsShowOpt : Option String → String
  | none => "null"
  | some s => s

/-- Numeric value of a list of decimal digit characters. -/
def digitsVal (l : List Char) : Nat :=
  l.foldl (fun acc c => acc * 10 + (c.toNat - 48)) 0

/-- JavaScript `parseInt(s, 10)`: skip leading spaces, optional sign,
then a maximal run of decimal digits; `none` models `NaN`. -/
def parseIntJs (s : String) : Option Int :=
  let cs := s.data.dropWhile (fun c => c = ' ')
  let signAndDigits : Bool × List Char :=
    match cs with
    | '-' :: rest => (true, rest)
    | '+' :: rest => (false, rest)
    | _ => (false, cs)
  let ds := signAndDigits.2.takeWhile Char.isDigit
  if ds.isEmpty then none
  else if signAndDigits.1 then some (-(digitsVal ds : Int))
  else some (digitsVal ds : Int)

/-- JavaScript `hay.includes(needle)`. -/
def containsSub (hay needle : String) : Bool :=
  (List.range (hay.data.length + 1)).any fun i =>
    needle.data.isPrefixOf (hay.data.drop i)

/-- The query parameters of the GET status webhook that its update logic
reads (`CallStatus`, `Stream[...]` sub-fields, `Duration`). -/
structure WebhookGetParams where
  callStatus : Option String := none
  streamStatus : Option String := none
  streamError : Option String := none
  streamDisconnectedBy : Option String := none
  streamDuration : Option String := none
  durationParam : Option String := none
deriving DecidableEq

/-- The `updatedStatus` computed by the if-chain of the GET webhook
(`webhook/route.ts`, GET handler): stream/terminal statuses are mapped
unconditionally, `answered` and `ringing` only from the listed prior
states. -/
def updatedStatusOf (st : CallStatus) (p : WebhookGetParams) : Option CallStatus :=
  if p.streamStatus = some "completed" ∨ p.callStatus = some "completed" then
    some .ended
  else if p.streamStatus = some "failed" ∨ p.callStatus = some "failed" then
    some .failed
  else if p.streamStatus = some "cancelled" then
    some (if st = .connected then .ended else .failed)
  else if p.callStatus = some "busy" then
    some .busy
  else if p.callStatus = some "no-answer" then
    some .noAnswer
  else if p.callStatus = some "answered" ∨ p.callStatus = some "in-progress" then
    (if st = .ringing ∨ st = .initiating then some .answered else none)
  else if p.callStatus = some "ringing" then
    (if st = .initiating ∨ st = .queued then some .ringing else none)
  else
    none

/-- The `call.failureReason` assignments performed by the same if-chain
(only the `failed` and `cancelled` branches write it). -/
def failureReasonOf (call : CallRecord) (p : WebhookGetParams) : Option String :=
  if p.streamStatus = some "completed" ∨ p.callStatus = some "completed" then
    call.failureReason
  else if p.streamStatus = some "failed" ∨ p.callStatus = some "failed" then
    jsOr p.streamError (jsOr call.failureReason
      (some ("Exotel reported status: " ++ jsShowOpt p.callStatus)))
  else if p.streamStatus = some "cancelled" then
    jsOr call.failureReason
      (some ("Stream cancelled by " ++ jsShowOpt (jsOr p.streamDisconnectedBy (some "unknown"))))
  else
    call.failureReason

/-- The terminal-status list used by the end-time guard of the GET webhook:
`['ended', 'failed', 'busy', 'no-answer'].includes(call.status)`. -/
def isTerminalDb : CallStatus → Bool
  | .ended => true
  | .failed => true
  | .busy => true
  | .noAnswer => true
  | _ => false

/-- The terminal-status set named by the specification (`ended`, `failed`,
`busy`, `no-answer`, `canceled`). -/
def isTerminalClaim : CallStatus → Bool
  | .ended => true
  | .failed => true
  | .busy => true
  | .noAnswer => true
  | .canceled => true
  | _ => false

/-- `call.duration` after the end-time block:
`streamDuration || Duration`, parsed with `parseInt` when that succeeds. -/
def durationOf (call : CallRecord) (p : WebhookGetParams) : Option Int :=
  match jsOr p.streamDuration p.durationParam with
  | some dv =>
    match parseIntJs dv with
    | some n => some n
    | none => call.duration
  | none => call.duration

/-- The persisted effect of one GET status webhook on a found call record
(`webhook/route.ts`, GET handler, status-update and end-time blocks):
the status is updated when `updatedStatus` differs from the current one,
`callEndTime`/`duration` are set when the (new) status is terminal and no
end time exists yet, and the document is saved only when one of the two
blocks set `needsSave`. -/
def processWebhookGet (call : CallRecord) (p : WebhookGetParams) (now : Nat) : CallRecord :=
  let st2 := (updatedStatusOf call.status p).getD call.status
  let statusChanged :=
    match updatedStatusOf call.status p with
    | some u => if call.status = u then false else true
    | none => false
  let fireEnd := isTerminalDb st2 && call.callEndTime.isNone
  if statusChanged || fireEnd then
    { call with
        status := st2
        failureReason := failureReasonOf call p
        callEndTime := if fireEnd then some now else call.callEndTime
        duration := if fireEnd then durationOf call p else call.duration }
  else
    call

/-- Outcome of the outbound `fetch` to the Exotel connect API in
`initiate-exotel/route.ts`: an accepted call (with SID), a non-ok HTTP
response, or a thrown network error. -/
inductive ExotelInitResult where
  | ok (sid : String)
  | httpFailure (code : Nat) (body : String)
  | netFailure (message : String)
deriving DecidableEq

/-- A JSON response sent back to the dashboard (HTTP status + message). -/
structure JsonMessage where
  code : Nat
  message : String
deriving DecidableEq

/-- The freshly created Call record of `initiate-exotel/route.ts`
(status `initiating`, `callStartTime` set to the initiation instant). -/
def newCallRecord (id userId elAgentId agentName contactName phoneNumber : String)
    (now : Nat) : CallRecord :=
  { id := id
    userId := userId
    elevenLabsAgentId := elAgentId
    agentName := some agentName
    contactName := some contactName
    phoneNumber := phoneNumber
    status := .initiating
    callStartTime := some now }

/-- `initiate-exotel/route.ts` after the initial record was saved: how the
record and the HTTP response depend on the Exotel API outcome.  A non-ok
response persists `failed` with a reason (TRAI/NDNC blocks get a dedicated
user-facing message); a thrown network error is caught and answered with a
JSON 500 without touching the record; success stores the SID and `ringing`. -/
def initiateExotelAfterCreate (call : CallRecord) (res : ExotelInitResult) :
    CallRecord × JsonMessage :=
  match res with
  | .httpFailure code body =>
    let trai := code == 403 && containsSub body "TRAI NDNC"
    let reason :=
      if trai then
        "Call blocked by TRAI/NDNC regulations. The recipient number is likely on the Do Not Call list."
      else
        "Exotel initiation failed: " ++ body
    let clientMessage :=
      if trai then
        "This call cannot be completed due to TRAI/NDNC regulations. The number may be on the Do Not Call list."
      else
        "Error initiating call. Status: " ++ toString code
    ({ call with status := .failed, failureReason := some reason },
     { code := code, message := clientMessage })
  | .netFailure _ =>
    (call, { code := 500, message := "Server error initiating call" })
  | .ok sid =>
    ({ call with exotelCallSid := some sid, status := .ringing },
     { code := 200, message := "Call initiated via Exotel" })

/-- The parse of the `CustomField` form value in the connect webhook:
absent, unparseable JSON, or a parsed object with the two expected keys. -/
inductive CustomFieldParse where
  | missing
  | malformed
  | fields (internalCallId : Option String) (agentId : Option String)
deriving DecidableEq

/-- Outcome of the ElevenLabs signed-URL fetch in the connect webhook. -/
inductive ELSignedUrlResult where
  | httpError (code : Nat)
  | missingUrl
  | ok (signedUrl : String)
deriving DecidableEq

/-- The ExoML directive returned synchronously to Exotel by the connect
webhook: a `<Stream>` instruction or a `<Hangup/>`. -/
inductive ExoDirective where
  | hangup
  | stream (url : String)
deriving DecidableEq

/-- Whether the parsed `CustomField` carries both required (truthy) keys. -/
def hasValidCustomField : CustomFieldParse → Bool
  | .fields icid aid => truthy icid && truthy aid
  | _ => false

/-- The answer webhook `exotel/connect/route.ts`: given the parsed
`CustomField`, the database lookup result, the optional agent-name lookup
and the ElevenLabs signed-URL outcome, it returns the directive and the
record it saved (if any).  Every failure path — missing or malformed
correlation data, unknown call, ElevenLabs error, missing `signed_url` —
is caught and answered with the `<Hangup/>` directive; only full success
saves the record (`connected`, URL stored, `callStartTime` defaulted) and
returns `<Stream>`. -/
def connectWebhook (cf : CustomFieldParse) (lookup : Option CallRecord)
    (agentLookup : Option String) (el : ELSignedUrlResult) (now : Nat) :
    ExoDirective × Option CallRecord :=
  match cf with
  | .missing => (.hangup, none)
  | .malformed => (.hangup, none)
  | .fields icid aid =>
    if truthy icid && truthy aid then
      match lookup with
      | none => (.hangup, none)
      | some call =>
        let call :=
          match agentLookup with
          | some n => { call with agentName := some n }
          | none => call
        match el with
        | .httpError _ => (.hangup, none)
        | .missingUrl => (.hangup, none)
        | .ok url =>
          let saved :=
            { call with
                elevenLabsSignedUrl := some url
                status := .connected
                callStartTime :=
                  if call.callStartTime = none then some now else call.callStartTime }
          (.stream url, some saved)
    else
      (.hangup, none)

/-- Response of the authenticated status endpoint
(`calls/[callId]/status/route.ts`). -/
inductive StatusApiResult where
  | badRequest
  | notFound
  | ok (status : CallStatus) (signedUrl : Option String)
      (callSid : Option String) (failureReason : Option String)
deriving DecidableEq

/-- `Call.findOne(\x7b _id: callId, userId \x7d)`: the record matching both
the id and the requesting user. -/
def findCallByIdAndUser (db : List CallRecord) (callId userId : String) :
    Option CallRecord :=
  db.find? (fun c => c.id == callId && c.userId == userId)

/-- The status endpoint: owner-scoped lookup, 404 "Call not found" when the
lookup misses, otherwise the status payload (each nullable field sent as
`x || null`). -/
def callStatusEndpoint (db : List CallRecord) (userId callId : String)
    (validId : Bool) : StatusApiResult :=
  if !validId then .badRequest
  else
    match findCallByIdAndUser db callId userId with
    | none => .notFound
    | some call =>
      .ok call.status (jsOrNull call.elevenLabsSignedUrl)
        (jsOrNull call.exotelCallSid) (jsOrNull call.failureReason)

/-- Outcome of the Exotel call-control request made by the hangup route. -/
inductive ExotelHangupResult where
  | ok
  | httpFailure (code : Nat) (body : String)
deriving DecidableEq

/-- Response of the hangup endpoint. -/
inductive HangupApiResult where
  | badRequest
  | notFound
  | noSid
  | providerError (code : Nat) (message : String)
  | accepted
deriving DecidableEq

/-- The hangup route (`calls/[callId]/hangup`): owner-scoped lookup (404
"Call not found" on miss), 400 without an Exotel SID, the provider error
relayed on a non-ok control response, and on success the record marked
`ended` with an end time unless it already ended or failed. -/
def hangupEndpoint (db : List CallRecord) (userId callId : String)
    (validId : Bool) (provider : ExotelHangupResult) (now : Nat) :
    HangupApiResult × List CallRecord :=
  if !validId then (.badRequest, db)
  else
    match findCallByIdAndUser db callId userId with
    | none => (.notFound, db)
    | some call =>
      if truthy call.exotelCallSid then
        match provider with
        | .httpFailure code body =>
          (.providerError code ("Exotel hangup error: " ++ body), db)
        | .ok =>
          if call.status ≠ .ended ∧ call.status ≠ .failed then
            let updated := { call with status := .ended, callEndTime := some now }
            (.accepted, db.map (fun c => if c.id = call.id then updated else c))
          else
            (.accepted, db)
      else
        (.noSid, db)

/-- Client-side state touched by one `pollCallStatus` iteration in
`dashboard/calls/page.tsx`: the interval handle (as a Boolean), the
signed URL handed to `useSocket`, the displayed status, and the number of
delayed call-list refreshes scheduled so far. -/
structure ClientState where
  pollingActive : Bool := true
  currentSignedUrl : Option String := none
  liveCallStatus : Option String := none
  refreshCount : Nat := 0
deriving DecidableEq

/-- One poll outcome: a non-ok HTTP response, a thrown network error, or a
parsed JSON body. -/
inductive PollResult where
  | httpError (code : Nat)
  | netError
  | ok (status : String) (signedUrl : Option String) (failureReason : Option String)
deriving DecidableEq

/-- One iteration of `pollCallStatus`: 404 stops polling, 5xx and network
errors surface a message and keep polling; on a JSON body the status is
surfaced, then `connected`-with-URL stores the URL and stops polling, and
a status in the hard-coded terminal list stops polling, possibly rewrites
the display to "Failed: reason", and schedules one delayed refresh. -/
def pollCallStatusStep (s : ClientState) (r : PollResult) : ClientState :=
  match r with
  | .httpError code =>
    if code = 404 then
      { s with liveCallStatus := some "Error: Call not found", pollingActive := false }
    else if code ≥ 500 then
      { s with liveCallStatus := some "Error: Server issue during polling" }
    else
      s
  | .netError =>
    { s with liveCallStatus := some "Error: Network issue during polling" }
  | .ok status url fr =>
    let s := { s with liveCallStatus := some status }
    if truthy url ∧ status = "connected" then
      { s with currentSignedUrl := url, pollingActive := false }
    else if status ∈ ["failed", "ended", "completed", "busy", "no-answer"] then
      let s := { s with pollingActive := false }
      let s :=
        if truthy fr then { s with liveCallStatus := some ("Failed: " ++ jsShowOpt fr) }
        else s
      { s with refreshCount := s.refreshCount + 1 }
    else
      s

/-- Client session state shared between `pollCallStatus` and the `useSocket`
hook: the module refs (`wsRef`, `isConnected`) plus counters instrumenting
how many connection attempts were made and how many channels are open. -/
structure SocketSession where
  pollingActive : Bool := true
  currentSignedUrl : Option String := none
  isConnected : Bool := false
  wsRefSet : Bool := false
  openChannels : Nat := 0
  connectAttempts : Nat := 0
deriving DecidableEq

/-- The connection guard of the `useSocket` effect:
`if (signedUrl && !isConnected && !wsRef.current)` open a new WebSocket and
store it in `wsRef.current` synchronously. -/
def socketConnectEffect (s : SocketSession) : SocketSession :=
  if truthy s.currentSignedUrl ∧ s.isConnected = false ∧ s.wsRefSet = false then
    { s with
        wsRefSet := true
        openChannels := s.openChannels + 1
        connectAttempts := s.connectAttempts + 1 }
  else
    s

/-- Handling of a poll response carrying `connected` plus a signed URL:
store the URL, stop polling, then the connection effect runs against the
updated state. -/
def sessionPollConnected (s : SocketSession) (url : Option String) : SocketSession :=
  if truthy url then
    socketConnectEffect { s with currentSignedUrl := url, pollingActive := false }
  else
    s

/-- Events of the client session: a `connected` poll response, a stray
re-run of the connection effect, and the WebSocket open/close callbacks. -/
inductive SocketEvent where
  | pollConnected (url : Option String)
  | effectRun
  | socketOpened
  | socketClosed
deriving DecidableEq

/-- Cooperative event-loop step of the client session. -/
def socketStep (s : SocketSession) : SocketEvent → SocketSession
  | .pollConnected url => sessionPollConnected s url
  | .effectRun => socketConnectEffect s
  | .socketOpened => if s.wsRefSet then { s with isConnected := true } else s
  | .socketClosed =>
    if s.wsRefSet then
      { s with wsRefSet := false, isConnected := false, openChannels := s.openChannels - 1 }
    else
      s

/-- The initial client session (before any call). -/
def socketInit : SocketSession := {}

/-- The audio playback machine of `processAudioQueue` (`useSocket` hook and
`Conversation.tsx`): the pending queue, the `isPlaying` flag, the clips
currently being played back, the order clips were started, and the order
they arrived. -/
structure AudioSys where
  queue : List Nat := []
  playing : Bool := false
  active : List Nat := []
  started : List Nat := []
  arrived : List Nat := []
deriving DecidableEq

/-- `processAudioQueue`: return when already playing or the queue is empty;
otherwise set `isPlaying`, shift the first clip and start it. -/
def processAudioQueue (s : AudioSys) : AudioSys :=
  if s.playing then s
  else
    match s.queue with
    | [] => s
    | c :: rest =>
      { s with playing := true, queue := rest, active := s.active ++ [c], started := s.started ++ [c] }

/-- Audio events: an audio chunk arriving on the WebSocket (`onmessage`),
and the end of the current playback (`onended` / `onerror` / rejected
`play()`, all of which clear `isPlaying` and re-run the queue). -/
inductive AudioEvent where
  | chunk (c : Nat)
  | playbackEnd
deriving DecidableEq

/-- One audio event step: a chunk is appended to the queue and the queue is
kicked when idle (`onmessage`); a playback end removes the finished clip,
clears `isPlaying` and processes the next clip (`onEnd`). -/
def audioStep (s : AudioSys) : AudioEvent → AudioSys
  | .chunk c =>
    let s := { s with queue := s.queue ++ [c], arrived := s.arrived ++ [c] }
    if !s.playing && s.queue.length > 0 then processAudioQueue s else s
  | .playbackEnd =>
    match s.active with
    | [] => s
    | _ => processAudioQueue { s with playing := false, active := [] }

/-- The initial audio machine. -/
def audioInit : AudioSys := {}

/-- A call record sitting in the terminal `busy` state (counterexample
input). -/
def rBusy : CallRecord :=
  { id := "call1", userId := "user1", elevenLabsAgentId := "agentA"
    exotelCallSid := some "sidB", status := .busy, callEndTime := some 5 }

/-- A call record in the `connected` state with no end time yet
(counterexample input). -/
def rConnectedLive : CallRecord :=
  { id := "call2", userId := "user1", elevenLabsAgentId := "agentA"
    exotelCallSid := some "sidC", status := .connected
    elevenLabsSignedUrl := some "wss://live.example/1", callStartTime := some 2 }

/-- A call record in the terminal `ended` state (witness input). -/
def rEnded : CallRecord :=
  { id := "call3", userId := "user1", elevenLabsAgentId := "agentA"
    exotelCallSid := some "sidD", status := .ended, callEndTime := some 9 }

/-- A webhook payload reporting `CallStatus=completed`. -/
def pCompleted : WebhookGetParams := { callStatus := some "completed" }

/-- A webhook payload reporting `Stream[Status]=cancelled`. -/
def pCancelled : WebhookGetParams := { streamStatus := some "cancelled" }

/-- A webhook payload reporting `CallStatus=ringing`. -/
def pRinging : WebhookGetParams := { callStatus := some "ringing" }

/-- The record persisted when Exotel rejects the initiation request with a
TRAI/NDNC block (counterexample input for the end-time claim). -/
def rRejected : CallRecord :=
  (initiateExotelAfterCreate
    (newCallRecord "call4" "user1" "agentA" "Agent A" "Bob" "9990001111" 3)
    (.httpFailure 403 "Blocked by TRAI NDNC rules")).1

/-- A call record in the `answered` state, as found by the connect webhook. -/
def rAnswered : CallRecord :=
  { id := "call5", userId := "user1", elevenLabsAgentId := "agentA"
    exotelCallSid := some "sidE", status := .answered, callStartTime := some 2 }

/-- The record saved by a successful connect webhook against `rAnswered`. -/
def rConnSaved : CallRecord :=
  ((connectWebhook (.fields (some "call5") (some "agentA")) (some rAnswered)
    (some "Agent A") (.ok "wss://live.example/1") 5).2).getD rAnswered

/-- `rConnSaved` after the provider delivers the terminal `completed`
callback: an ended record that still holds the signed URL. -/
def rEndedWithUrl : CallRecord :=
  processWebhookGet rConnSaved pCompleted 9

/-- A client state mid-poll (witness / counterexample input). -/
def pollingState : ClientState := { pollingActive := true }

/-- A database holding one call owned by another user (witness input). -/
def dbForeign : List CallRecord :=
  [{ id := "call9", userId := "someoneElse", elevenLabsAgentId := "agentZ"
     exotelCallSid := some "sidZ", status := .connected
     elevenLabsSignedUrl := some "wss://live.example/9" }]

/-- The status stored by the GET webhook is exactly `updatedStatus`, when
one was computed, and the prior status otherwise. -/
theorem get_status_eq (r : CallRecord) (p : WebhookGetParams) (now : Nat) :
    (processWebhookGet r p now).status = (updatedStatusOf r.status p).getD r.status := by
  unfold processWebhookGet
  cases hu : updatedStatusOf r.status p with
  | none =>
    simp only [hu, Option.getD_none, Bool.false_or]
    by_cases hb : (isTerminalDb r.status && r.callEndTime.isNone) = true
    · simp [hb]
    · simp [hb]
  | some u =>
    by_cases he : r.status = u
    · by_cases hb : isTerminalDb u = true ∧ r.callEndTime = none
      · simp [hu, he, hb]
      · simp [hu, he, hb]
    · simp [hu, he]

/-- The end time stored by the GET webhook: set to the current instant
exactly when the updated status is in the terminal list and no end time
exists yet, and left untouched otherwise. -/
theorem get_endTime_eq (r : CallRecord) (p : WebhookGetParams) (now : Nat) :
    (processWebhookGet r p now).callEndTime =
      (if isTerminalDb ((updatedStatusOf r.status p).getD r.status) && r.callEndTime.isNone
       then some now else r.callEndTime) := by
  unfold processWebhookGet
  cases hu : updatedStatusOf r.status p with
  | none =>
    simp only [hu, Option.getD_none, Bool.false_or]
    by_cases hb : (isTerminalDb r.status && r.callEndTime.isNone) = true
    · simp [hb]
    · simp [hb]
  | some u =>
    by_cases he : r.status = u
    · simp only [hu, he, Option.getD_some]
      by_cases hb : (isTerminalDb u && r.callEndTime.isNone) = true
      · simp [he, hb]
      · simp [he, hb]
    · simp [hu, he]

/-- Any record the GET webhook leaves in a status of the terminal list has
an end time: either it already had one, or the end-time block just set it. -/
theorem get_terminal_endTime (r : CallRecord) (p : WebhookGetParams) (now : Nat)
    (h : isTerminalDb (processWebhookGet r p now).status = true) :
    (processWebhookGet r p now).callEndTime.isSome = true := by
  rw [get_status_eq] at h
  rw [get_endTime_eq]
  cases hce : r.callEndTime with
  | none => simp [h, hce]
  | some t => simp [hce]

/-- Applying the GET webhook status chain a second time (same parameters,
payload without `Stream[Status]=cancelled`) computes either no update or
the status already stored. -/
theorem updatedStatus_second (st : CallStatus) (p : WebhookGetParams)
    (h : p.streamStatus ≠ some "cancelled") :
    updatedStatusOf ((updatedStatusOf st p).getD st) p = none ∨
      updatedStatusOf ((updatedStatusOf st p).getD st) p = some ((updatedStatusOf st p).getD st) := by
  by_cases c1 : p.streamStatus = some "completed" ∨ p.callStatus = some "completed"
  · right; simp [updatedStatusOf, c1]
  · push_neg at c1
    by_cases c2 : p.streamStatus = some "failed" ∨ p.callStatus = some "failed"
    · right; simp [updatedStatusOf, c1.1, c1.2, c2]
    · push_neg at c2
      by_cases c4 : p.callStatus = some "busy"
      · right; simp [updatedStatusOf, c1.1, c1.2, c2.1, c2.2, h, c4]
      · by_cases c5 : p.callStatus = some "no-answer"
        · right; simp [updatedStatusOf, c1.1, c1.2, c2.1, c2.2, h, c4, c5]
        · by_cases c6 : p.callStatus = some "answered" ∨ p.callStatus = some "in-progress"
          · by_cases g1 : st = .ringing ∨ st = .initiating
            · left; simp [updatedStatusOf, c1.1, c1.2, c2.1, c2.2, h, c4, c5, c6, g1]
            · left; push_neg at g1
              simp [updatedStatusOf, c1.1, c1.2, c2.1, c2.2, h, c4, c5, c6, g1.1, g1.2]
          · push_neg at c6
            by_cases c7 : p.callStatus = some "ringing"
            · by_cases g2 : st = .initiating ∨ st = .queued
              · left
                simp [updatedStatusOf, c1.1, c1.2, c2.1, c2.2, h, c4, c5, c6.1, c6.2, c7, g2]
              · left; push_neg at g2
                simp [updatedStatusOf, c1.1, c1.2, c2.1, c2.2, h, c4, c5, c6.1, c6.2, c7, g2.1, g2.2]
            · left
              simp [updatedStatusOf, c1.1, c1.2, c2.1, c2.2, h, c4, c5, c6.1, c6.2, c7]

/-- The GET webhook does not save when the status chain computes no change
and the end-time block has nothing to do. -/
theorem get_noop (r : CallRecord) (p : WebhookGetParams) (now : Nat)
    (h1 : updatedStatusOf r.status p = none ∨ updatedStatusOf r.status p = some r.status)
    (h2 : isTerminalDb r.status = true → r.callEndTime.isSome = true) :
    processWebhookGet r p now = r := by
  have hb : (isTerminalDb r.status && r.callEndTime.isNone) = false := by
    cases ht : isTerminalDb r.status
    · simp
    · have hs := h2 ht
      cases hce : r.callEndTime
      · rw [hce] at hs; simp at hs
      · simp [hce]
  unfold processWebhookGet
  rcases h1 with h1 | h1
  · simp [h1, hb]
  · simp [h1, hb]

/-- Re-delivering the same GET status callback (payload without
`Stream[Status]=cancelled`) leaves the stored record unchanged. -/
theorem get_idempotent (r : CallRecord) (p : WebhookGetParams) (t1 t2 : Nat)
    (h : p.streamStatus ≠ some "cancelled") :
    processWebhookGet (processWebhookGet r p t1) p t2 = processWebhookGet r p t1 := by
  apply get_noop
  · rw [get_status_eq]
    exact updatedStatus_second r.status p h
  · intro ht
    exact get_terminal_endTime r p t1 ht

set_option maxHeartbeats 1000000 in
/-- When the GET webhook status chain produces an update for a record in a
spec-terminal state, the new status is again spec-terminal (the `answered`
and `ringing` branches are guarded by non-terminal prior states, all other
branches produce terminal statuses). -/
theorem updatedStatus_terminal (st u : CallStatus) (p : WebhookGetParams)
    (hst : isTerminalClaim st = true) (hu : updatedStatusOf st p = some u) :
    isTerminalClaim u = true := by
  cases st with
  | queued => exact absurd hst (by decide)
  | initiating => exact absurd hst (by decide)
  | ringing => exact absurd hst (by decide)
  | answered => exact absurd hst (by decide)
  | inProgress => exact absurd hst (by decide)
  | connected => exact absurd hst (by decide)
  | completed => exact absurd hst (by decide)
  | ended => unfold updatedStatusOf at hu; split_ifs at hu <;> (try injection hu with hu) <;> (try cases hu) <;> first | rfl | simp_all
  | failed => unfold updatedStatusOf at hu; split_ifs at hu <;> (try injection hu with hu) <;> (try cases hu) <;> first | rfl | simp_all
  | busy => unfold updatedStatusOf at hu; split_ifs at hu <;> (try injection hu with hu) <;> (try cases hu) <;> first | rfl | simp_all
  | noAnswer => unfold updatedStatusOf at hu; split_ifs at hu <;> (try injection hu with hu) <;> (try cases hu) <;> first | rfl | simp_all
  | canceled => unfold updatedStatusOf at hu; split_ifs at hu <;> (try injection hu with hu) <;> (try cases hu) <;> first | rfl | simp_all

/-- Claim C1 counterexample: a record in the terminal state `busy` does not
keep its status when the GET webhook later delivers `CallStatus=completed`
— the handler overwrites it with `ended`, so a terminal state is not
sticky as claimed. -/
theorem c1_counterexample :
    isTerminalClaim rBusy.status = true ∧
      (processWebhookGet rBusy pCompleted 10).status ≠ rBusy.status := by
  decide

/-- Claim C1 (amended): under the GET status webhook, a record whose status
is in the spec-terminal set \x7bended, failed, busy, no-answer, canceled\x7d
always remains in that set — a terminal state is never reverted to a
non-terminal state — although one terminal state can still be replaced by a
different terminal one. -/
theorem c1_get_terminal_never_reverted (r : CallRecord) (p : WebhookGetParams) (now : Nat)
    (h : isTerminalClaim r.status = true) :
    isTerminalClaim (processWebhookGet r p now).status = true := by
  rw [get_status_eq]
  cases hu : updatedStatusOf r.status p with
  | none => simpa using h
  | some u => simpa using updatedStatus_terminal r.status u p h hu

/-- Claim C1 witness: the amended theorem applied to an `ended` record
receiving a late `ringing` callback. -/
theorem c1_witness :
    isTerminalClaim rEnded.status = true ∧
      isTerminalClaim (processWebhookGet rEnded pRinging 11).status = true :=
  ⟨by decide, c1_get_terminal_never_reverted rEnded pRinging 11 (by decide)⟩

/-- Claim C2 counterexample: delivering `Stream[Status]=cancelled` twice to
a connected call is not idempotent — the first delivery stores `ended`, the
duplicate then flips the record to `failed` (the cancelled branch decides
on the already-updated status). -/
theorem c2_counterexample :
    processWebhookGet (processWebhookGet rConnectedLive pCancelled 1) pCancelled 2 ≠
      processWebhookGet rConnectedLive pCancelled 1 := by
  decide

/-- Claim C2 (amended): for the GET status webhook, re-delivering the same
payload is observably a no-op on the persisted record, for every payload
except those carrying `Stream[Status]=cancelled`. -/
theorem c2_get_duplicate_idempotent (r : CallRecord) (p : WebhookGetParams) (t1 t2 : Nat)
    (h : p.streamStatus ≠ some "cancelled") :
    processWebhookGet (processWebhookGet r p t1) p t2 = processWebhookGet r p t1 :=
  get_idempotent r p t1 t2 h

/-- Claim C2 witness: the amended theorem applied to a duplicated
`completed` callback against a busy record. -/
theorem c2_witness :
    pCompleted.streamStatus ≠ some "cancelled" ∧
      processWebhookGet (processWebhookGet rBusy pCompleted 4) pCompleted 6 =
        processWebhookGet rBusy pCompleted 4 :=
  ⟨by decide, c2_get_duplicate_idempotent rBusy pCompleted 4 6 (by decide)⟩

/-- Claim C3 counterexample: the record persisted when Exotel rejects the
initiation request is in the terminal state `failed` yet has no
`callEndTime` — a terminal record without an end time. -/
theorem c3_counterexample :
    isTerminalClaim rRejected.status = true ∧ rRejected.callEndTime = none := by
  decide

/-- Claim C3 (amended): the GET status webhook writes `callEndTime` exactly
when the post-update status is in its terminal list and no end time exists
yet, and otherwise leaves it untouched; in particular an end time, once
set, is never changed or unset by the webhook.  (Terminal records created
by the initiation-rejection path carry no end time until a webhook
arrives.) -/
theorem c3_get_callEndTime_once (r : CallRecord) (p : WebhookGetParams) (now : Nat) :
    ((processWebhookGet r p now).callEndTime =
      if isTerminalDb ((updatedStatusOf r.status p).getD r.status) && r.callEndTime.isNone
      then some now else r.callEndTime) ∧
    (∀ t, r.callEndTime = some t → (processWebhookGet r p now).callEndTime = some t) := by
  refine ⟨get_endTime_eq r p now, ?_⟩
  intro t ht
  rw [get_endTime_eq, ht]
  simp

/-- Claim C3 witness: an ended record with end time 9 keeps that end time
across a further `completed` callback. -/
theorem c3_witness :
    rEnded.callEndTime = some 9 ∧
      (processWebhookGet rEnded pCompleted 12).callEndTime = some 9 :=
  ⟨rfl, (c3_get_callEndTime_once rEnded pCompleted 12).2 9 rfl⟩

/-- Claim C4 bug evidence: a call that reached `connected` through the
connect webhook (non-empty signed URL) and then received the terminal
`completed` callback still holds the credential, and the status endpoint
serves it to the client (`signedUrl` is non-null in the 200 response)
although the call is terminal — contradicting the route's own comment
"Send URL only when connected". -/
theorem c4_terminal_credential_served :
    rConnSaved.status = .connected ∧
    rConnSaved.elevenLabsSignedUrl = some "wss://live.example/1" ∧
    isTerminalClaim rEndedWithUrl.status = true ∧
    callStatusEndpoint [rEndedWithUrl] "user1" "call5" true =
      .ok .ended (some "wss://live.example/1") (some "sidE") none := by
  decide

/-- Claim C5 counterexample: when the Exotel fetch throws (provider
unreachable), the catch block answers the dashboard with a JSON 500 but
the call record is left in `initiating` — it is not persisted as
`failed`. -/
theorem c5_counterexample :
    (initiateExotelAfterCreate
        (newCallRecord "call6" "user1" "agentA" "Agent A" "Bob" "9990001111" 3)
        (.netFailure "fetch failed: ECONNREFUSED")).1.status = .initiating ∧
    (initiateExotelAfterCreate
        (newCallRecord "call6" "user1" "agentA" "Agent A" "Bob" "9990001111" 3)
        (.netFailure "fetch failed: ECONNREFUSED")).2 =
      { code := 500, message := "Server error initiating call" } :=
  ⟨rfl, rfl⟩

/-- Claim C5 (amended): a provider rejection (non-ok HTTP response) always
persists `failed` with a reason and answers the dashboard with a JSON
message; a network failure is likewise caught and answered with a JSON 500
(no raw exception), but it leaves the record unchanged instead of marking
it failed. -/
theorem c5_rejection_persists_failed (call : CallRecord) (code : Nat) (body msg : String) :
    (initiateExotelAfterCreate call (.httpFailure code body)).1.status = .failed ∧
    (initiateExotelAfterCreate call (.httpFailure code body)).1.failureReason.isSome = true ∧
    (initiateExotelAfterCreate call (.netFailure msg)).2 =
      { code := 500, message := "Server error initiating call" } ∧
    (initiateExotelAfterCreate call (.netFailure msg)).1 = call :=
  ⟨rfl, rfl, rfl, rfl⟩

/-- Claim C6: whatever goes wrong in the answer webhook — missing or
malformed `CustomField`, missing keys, unknown call id, or a failed
signed-URL acquisition — its synchronous response is the Hangup
directive, never a Stream directive. -/
theorem c6_error_yields_hangup (cf : CustomFieldParse) (lookup : Option CallRecord)
    (agentLookup : Option String) (el : ELSignedUrlResult) (now : Nat)
    (h : (∀ u, el ≠ .ok u) ∨ lookup = none ∨ hasValidCustomField cf = false) :
    (connectWebhook cf lookup agentLookup el now).1 = .hangup := by
  cases cf with
  | missing => rfl
  | malformed => rfl
  | fields icid aid =>
    by_cases hv : (truthy icid && truthy aid) = true
    · rcases h with h | h | h
      · cases lookup with
        | none => simp [connectWebhook, hv]
        | some call =>
          cases el with
          | httpError c => simp [connectWebhook, hv]
          | missingUrl => simp [connectWebhook, hv]
          | ok u => exact absurd rfl (h u)
      · subst h; simp [connectWebhook, hv]
      · rw [hasValidCustomField] at h
        exact absurd hv (by simp [h])
    · simp [connectWebhook, hv]

/-- Claim C6 witness: the theorem applied to a request whose signed-URL
acquisition fails with an HTTP 500. -/
theorem c6_witness :
    (connectWebhook (.fields (some "call5") (some "agentA")) (some rAnswered)
        none (.httpError 500) 7).1 = .hangup :=
  c6_error_yields_hangup (.fields (some "call5") (some "agentA")) (some rAnswered)
    none (.httpError 500) 7 (Or.inl fun u hEq => by cases hEq)

/-- Claim C7 counterexample: a poll response with the terminal status
`canceled` does not stop polling — `canceled` is missing from the
hard-coded terminal list of `pollCallStatus`. -/
theorem c7_counterexample :
    pollingState.pollingActive = true ∧
      (pollCallStatusStep pollingState (.ok "canceled" none none)).pollingActive = true := by
  decide

/-- Claim C7 (amended): on a poll response whose status is in the client's
terminal list (`failed`, `ended`, `completed`, `busy`, `no-answer` — note:
not `canceled`), polling stops, exactly one delayed call-list refresh is
scheduled, and the final status (or "Failed: reason") is surfaced. -/
theorem c7_terminal_poll_stops (s : ClientState) (st : String) (url fr : Option String)
    (h : st ∈ ["failed", "ended", "completed", "busy", "no-answer"]) :
    (pollCallStatusStep s (.ok st url fr)).pollingActive = false ∧
    (pollCallStatusStep s (.ok st url fr)).refreshCount = s.refreshCount + 1 ∧
    (pollCallStatusStep s (.ok st url fr)).liveCallStatus =
      some (if truthy fr then "Failed: " ++ jsShowOpt fr else st) := by
  have hne : ¬(truthy url = true ∧ st = "connected") := by
    rintro ⟨-, rfl⟩
    exact absurd h (by decide)
  unfold pollCallStatusStep
  dsimp only
  rw [if_neg hne, if_pos h]
  by_cases hf : truthy fr = true
  · simp [hf]
  · simp [hf]

/-- Claim C7 witness: the amended theorem applied to a `busy` response
carrying a failure reason. -/
theorem c7_witness :
    ("busy" ∈ ["failed", "ended", "completed", "busy", "no-answer"]) ∧
    ((pollCallStatusStep pollingState (.ok "busy" none (some "line busy"))).pollingActive = false ∧
     (pollCallStatusStep pollingState (.ok "busy" none (some "line busy"))).refreshCount =
       pollingState.refreshCount + 1 ∧
     (pollCallStatusStep pollingState (.ok "busy" none (some "line busy"))).liveCallStatus =
       some (if truthy (some "line busy") then "Failed: " ++ jsShowOpt (some "line busy")
             else "busy")) :=
  ⟨by decide, c7_terminal_poll_stops pollingState "busy" none (some "line busy") (by decide)⟩

/-- Claim C10: when every record matching the requested call id belongs to
a different user, both the status endpoint and the hangup endpoint answer
404 "Call not found" — no field of the foreign record is disclosed — and
the hangup endpoint leaves the database untouched. -/
theorem c10_foreign_call_not_found (db : List CallRecord) (userId callId : String)
    (provider : ExotelHangupResult) (now : Nat)
    (h : ∀ c ∈ db, c.id = callId → c.userId ≠ userId) :
    callStatusEndpoint db userId callId true = .notFound ∧
    hangupEndpoint db userId callId true provider now = (.notFound, db) := by
  have hf : findCallByIdAndUser db callId userId = none := by
    unfold findCallByIdAndUser
    rw [List.find?_eq_none]
    intro c hc hcc
    rw [Bool.and_eq_true, beq_iff_eq, beq_iff_eq] at hcc
    exact h c hc hcc.1 hcc.2
  constructor
  · unfold callStatusEndpoint
    simp [hf]
  · unfold hangupEndpoint
    simp [hf]

/-- Claim C10 witness: the theorem applied to a database holding one record
owned by another user. -/
theorem c10_witness :
    (∀ c ∈ dbForeign, c.id = "call9" → c.userId ≠ "me") ∧
    callStatusEndpoint dbForeign "me" "call9" true = .notFound ∧
    hangupEndpoint dbForeign "me" "call9" true .ok 4 = (.notFound, dbForeign) :=
  ⟨by decide,
   (c10_foreign_call_not_found dbForeign "me" "call9" .ok 4 (by decide)).1,
   (c10_foreign_call_not_found dbForeign "me" "call9" .ok 4 (by decide)).2⟩

/-- One session event preserves the channel-count invariant: a channel is
open exactly when `wsRef.current` is set. -/
theorem socketStep_inv (s : SocketSession) (e : SocketEvent)
    (h : s.openChannels = if s.wsRefSet then 1 else 0) :
    (socketStep s e).openChannels = if (socketStep s e).wsRefSet then 1 else 0 := by
  cases e with
  | pollConnected url =>
    unfold socketStep sessionPollConnected socketConnectEffect
    dsimp only
    by_cases hu : truthy url = true
    · rw [if_pos hu]
      by_cases hg : truthy url = true ∧ s.isConnected = false ∧ s.wsRefSet = false
      · rw [if_pos hg]
        have h0 : s.openChannels = 0 := by rw [h, hg.2.2]; rfl
        simp [h0]
      · rw [if_neg hg]
        simpa using h
    · rw [if_neg hu]
      simpa using h
  | effectRun =>
    unfold socketStep socketConnectEffect
    split_ifs <;> simp_all
  | socketOpened =>
    unfold socketStep
    split_ifs <;> simp_all
  | socketClosed =>
    unfold socketStep
    split_ifs <;> simp_all

/-- The channel-count invariant holds along any event sequence. -/
theorem socket_fold_inv (evs : List SocketEvent) (s : SocketSession)
    (h : s.openChannels = if s.wsRefSet then 1 else 0) :
    (evs.foldl socketStep s).openChannels =
      if (evs.foldl socketStep s).wsRefSet then 1 else 0 := by
  induction evs generalizing s with
  | nil => exact h
  | cons e rest ih => exact ih (socketStep s e) (socketStep_inv s e h)

/-- Claim C8: along any event sequence at most one live channel is open;
and from a state with no WebSocket stored and no open connection, a
`connected` poll response stops polling and makes exactly one connection
attempt — a second `connected` poll response (timer/response race) adds no
further attempt, because the guard sees `wsRef.current` already set. -/
theorem c8_single_connection_attempt (evs : List SocketEvent) (s : SocketSession)
    (url1 : String) (url2 : Option String)
    (hw : s.wsRefSet = false) (hc : s.isConnected = false) (hu : url1 ≠ "") :
    (evs.foldl socketStep socketInit).openChannels ≤ 1 ∧
    (sessionPollConnected s (some url1)).pollingActive = false ∧
    (sessionPollConnected s (some url1)).connectAttempts = s.connectAttempts + 1 ∧
    (sessionPollConnected (sessionPollConnected s (some url1)) url2).connectAttempts =
      s.connectAttempts + 1 := by
  have ht : truthy (some url1) = true := by simp [truthy, hu]
  have hfire : sessionPollConnected s (some url1) =
      { s with
          currentSignedUrl := some url1
          pollingActive := false
          wsRefSet := true
          openChannels := s.openChannels + 1
          connectAttempts := s.connectAttempts + 1 } := by
    unfold sessionPollConnected socketConnectEffect
    rw [if_pos ht]
    rw [if_pos (by simp [ht, hc, hw])]
  refine ⟨?_, ?_, ?_, ?_⟩
  · have hinv := socket_fold_inv evs socketInit (by rfl)
    rw [hinv]
    split_ifs <;> omega
  · rw [hfire]
  · rw [hfire]
  · rw [hfire]
    unfold sessionPollConnected socketConnectEffect
    by_cases h2 : truthy url2 = true
    · rw [if_pos h2]
      rw [if_neg (by simp)]
    · rw [if_neg h2]

/-- Claim C8 witness: two racing `connected` poll responses from the fresh
session yield exactly one connection attempt. -/
theorem c8_witness :
    socketInit.wsRefSet = false ∧ socketInit.isConnected = false ∧
      ("wss://live.example/1" : String) ≠ "" ∧
    ((List.nil.foldl socketStep socketInit).openChannels ≤ 1 ∧
     (sessionPollConnected socketInit (some "wss://live.example/1")).pollingActive = false ∧
     (sessionPollConnected socketInit (some "wss://live.example/1")).connectAttempts =
       socketInit.connectAttempts + 1 ∧
     (sessionPollConnected (sessionPollConnected socketInit (some "wss://live.example/1"))
        (some "wss://live.example/1")).connectAttempts = socketInit.connectAttempts + 1) :=
  ⟨rfl, rfl, by decide,
   c8_single_connection_attempt [] socketInit "wss://live.example/1"
     (some "wss://live.example/1") rfl rfl (by decide)⟩

/-- One audio event preserves the playback invariant: exactly one clip is
being played back when (and only when) `isPlaying` is set, and the clips
started so far followed by the pending queue are exactly the clips that
arrived, in order. -/
theorem audioStep_inv (s : AudioSys) (e : AudioEvent)
    (h1 : s.active.length = if s.playing then 1 else 0)
    (h2 : s.arrived = s.started ++ s.queue) :
    (audioStep s e).active.length = (if (audioStep s e).playing then 1 else 0) ∧
    (audioStep s e).arrived = (audioStep s e).started ++ (audioStep s e).queue := by
  cases e with
  | chunk c =>
    unfold audioStep processAudioQueue
    dsimp only
    by_cases hp : s.playing = true
    · simp [hp, h1, h2]
    · have hp2 : s.playing = false := by
        cases hpv : s.playing
        · rfl
        · exact absurd hpv hp
      have ha : s.active = [] := by
        rw [hp2] at h1
        exact List.length_eq_zero.mp (by simpa using h1)
      cases hq : s.queue with
      | nil => simp [hp2, hq, ha, h1, h2]
      | cons q qs => simp [hp2, hq, ha, h2]
  | playbackEnd =>
    unfold audioStep processAudioQueue
    dsimp only
    cases ha : s.active with
    | nil => exact ⟨by rw [ha] at h1 ⊢; exact h1, h2⟩
    | cons a rest =>
      cases hq : s.queue with
      | nil => simp [ha, hq, h2]
      | cons q qs => simp [ha, hq, h2]

/-- The playback invariant holds along any audio event sequence. -/
theorem audio_fold_inv (evs : List AudioEvent) (s : AudioSys)
    (h1 : s.active.length = if s.playing then 1 else 0)
    (h2 : s.arrived = s.started ++ s.queue) :
    (evs.foldl audioStep s).active.length =
      (if (evs.foldl audioStep s).playing then 1 else 0) ∧
    (evs.foldl audioStep s).arrived =
      (evs.foldl audioStep s).started ++ (evs.foldl audioStep s).queue := by
  induction evs generalizing s with
  | nil => exact ⟨h1, h2⟩
  | cons e rest ih =>
    have h := audioStep_inv s e h1 h2
    exact ih (audioStep s e) h.1 h.2

/-- Claim C9: along any sequence of audio-chunk arrivals and playback
completions, at most one clip is ever being played back, and the clips are
started strictly in arrival order (the started clips followed by the
pending queue are exactly the arrivals). -/
theorem c9_sequential_playback (evs : List AudioEvent) :
    (evs.foldl audioStep audioInit).active.length ≤ 1 ∧
    (evs.foldl audioStep audioInit).started ++ (evs.foldl audioStep audioInit).queue =
      (evs.foldl audioStep audioInit).arrived := by
  have h := audio_fold_inv evs audioInit rfl rfl
  refine ⟨?_, h.2.symm⟩
  rw [h.1]
  split_ifs <;> omega
